import Mathlib

/-!
Shallow embedding of `scripts/sync_to_wechat.py` (BlogImagesBox).

The script is a single linear synchronization routine: it reads two
credential environment values, acquires (and caches) an access token,
loads a persisted upload ledger (`sync_history.json`), and for each
logical path in the argument list decides skip / upload based on an MD5
comparison against the ledger, updating and persisting the ledger after
each successful upload.

Modelling choices:
  * All external effects (directory creation, network calls, file
    writes, sleeps) are recorded as an explicit `Event` trace; the
    environment `Env` supplies the results of the effectful reads
    (environment variables, the token-cache file, the token-exchange
    response, the history file, the local filesystem, the upload
    endpoint).
  * Machine MD5 is opaque to the script, so it is a parameter
    `md5 : String → String` of the environment; local file contents are
    plain strings.
  * `time.time()` is modelled by a single per-run clock `Env.now : Int`
    (the script only stores and compares timestamps).
  * JSON persistence of the ledger is modelled at the level of a JSON
    AST (`Json`): `save_history` produces the serialized document and
    `load_history` decodes it, returning the empty ledger when the file
    is absent or unparsable, exactly as the Python `except` handler
    does.  A parsed file that is not ledger-shaped would make the
    Python script fail later with a dynamic type error; the model
    restricts attention to ledger-shaped documents (that is all the
    script itself ever writes).
-/

/-- A minimal JSON AST, enough for the documents the script reads and
writes (`sync_history.json` and `access_token.json`). -/
inductive Json where
  | null : Json
  | jbool : Bool → Json
  | jnum : Int → Json
  | jstr : String → Json
  | jobj : List (String × Json) → Json

/-- One value of the history mapping: the dict written at
`history[img_rel_path] = {media_id, url, md5, time}` (line 143). -/
structure LedgerEntry where
  media_id : String
  url : Option String
  md5 : String
  time : Int
deriving Repr, DecidableEq

/-- The in-memory history: a Python dict keyed by logical path,
modelled as an insertion-ordered association list with unique keys. -/
abbrev Ledger := List (String × LedgerEntry)

/-- Python dict lookup `history[k]` / `k in history`. -/
def dictLookup (l : Ledger) (k : String) : Option LedgerEntry :=
  (l.find? (fun kv => kv.1 = k)).map (fun kv => kv.2)

/-- Python dict assignment `history[k] = v`: overwrite in place when the
key is present, append otherwise (insertion order preserved). -/
def dictInsert (l : Ledger) (k : String) (v : LedgerEntry) : Ledger :=
  if l.any (fun kv => kv.1 = k) then
    l.map (fun kv => if kv.1 = k then (k, v) else kv)
  else
    l ++ [(k, v)]

/-- The multipart upload request `requests.post(url, files={'media':
(file_name, f)})` of `upload_image` (lines 85-87): the token in the URL,
the flattened remote filename, and the local file being streamed. -/
structure UploadRequest where
  token : String
  fileName : String
  localPath : String
deriving Repr, DecidableEq

/-- Observable side effects of a run, in program order. -/
inductive Event where
  | mkdirWorkspace : Event
  | tokenRequest : Event
  | tokenCacheWrite : String → Int → Event
  | uploadCall : UploadRequest → Event
  | saveHistoryWrite : Ledger → Event
  | sleep : Nat → Event
deriving Repr, DecidableEq

/-- The decoded JSON body of an upload response, viewed through the
key-presence checks the script performs (`'media_id' in result`,
`result.get('url')`, and the failure shape `{errcode, errmsg}`). -/
structure WireResponse where
  media_id : Option String
  url : Option String
  errcode : Option Int
  errmsg : Option String
deriving Repr, DecidableEq

/-- The decoded JSON body of the token-exchange response, viewed through
the key accesses of `get_access_token` (`'access_token' in data`,
`data['expires_in']`). -/
structure TokenResponse where
  access_token : Option String
  expires_in : Option Int
deriving Repr, DecidableEq

/-- State of the persisted token cache `access_token.json` as
`get_access_token` finds it: missing file, a file whose parse (or field
access) raises — swallowed by the bare `except: pass` — or a parsed
document with an optional `token` field and `expires_at`
(`data.get('expires_at', 0)` defaults to 0, so an absent field is the
same as a parsed 0). -/
inductive TokenCacheFile where
  | absent : TokenCacheFile
  | corrupt : TokenCacheFile
  | parsed : Option String → Int → TokenCacheFile
deriving Repr, DecidableEq

/-- State of the persisted history file `sync_history.json`: missing,
unparsable (the `except` of `load_history` returns `{}`), or a parsed
JSON document. -/
inductive HistFile where
  | absent : HistFile
  | corrupt : HistFile
  | parsed : Json → HistFile

/-- The ambient world the script runs in: credentials from the
environment, the clock, the two persisted files, the local filesystem
(contents by file name), the MD5 function, and the two remote
endpoints.  A network interaction is `Except String r`: `error e`
models a raised transport exception with text `e`. -/
structure Env where
  app_id : Option String
  app_secret : Option String
  now : Int
  tokenCacheFile : TokenCacheFile
  tokenNet : Except String TokenResponse
  historyFile : HistFile
  fs : String → Option String
  md5 : String → String
  uploadNet : UploadRequest → Except String WireResponse

/-- Python truthiness of an environment read: `os.environ.get` gives
`None` when unset, and `not APP_ID` is also true for the empty string. -/
def pyTruthy : Option String → Bool
  | none => false
  | some s => !s.isEmpty

/-- Python `s.replace("/", "_")`: with a one-character pattern this is
exactly the character map sending `/` to `_` (used for both the local
flattened filename, line 117, and the remote filename, line 82). -/
def pyReplaceSlash (s : String) : String :=
  String.mk (s.data.map (fun c => if c = '/' then '_' else c))

/-- Helper for Python `s.split()`: walk the characters, accumulating the
current (reversed) word, emitting it at each whitespace run boundary. -/
def pySplitWsAux : List Char → List Char → List String
  | [], cur => if cur.isEmpty then [] else [String.mk cur.reverse]
  | c :: cs, cur =>
    if c.isWhitespace then
      if cur.isEmpty then pySplitWsAux cs []
      else String.mk cur.reverse :: pySplitWsAux cs []
    else pySplitWsAux cs (c :: cur)

/-- Python `s.split()` with no argument: split on runs of whitespace,
never producing empty pieces. -/
def pySplitWs (s : String) : List String :=
  pySplitWsAux s.data []

/-- JSON serialization of one ledger entry, the dict of line 143. -/
def entryToJson (e : LedgerEntry) : Json :=
  Json.jobj [
    ("media_id", Json.jstr e.media_id),
    ("url", match e.url with | none => Json.null | some u => Json.jstr u),
    ("md5", Json.jstr e.md5),
    ("time", Json.jnum e.time)]

/-- Decoding of one ledger entry from the shape `entryToJson` writes. -/
def entryFromJson : Json → Option LedgerEntry
  | Json.jobj [
      ("media_id", Json.jstr m),
      ("url", u),
      ("md5", Json.jstr h),
      ("time", Json.jnum t)] =>
    match u with
    | Json.null => some ⟨m, none, h, t⟩
    | Json.jstr s => some ⟨m, some s, h, t⟩
    | _ => none
  | _ => none

/-- JSON serialization of the whole history mapping, as
`json.dump(history, f, indent=2)` writes it. -/
def ledgerToJson (l : Ledger) : Json :=
  Json.jobj (l.map (fun kv => (kv.1, entryToJson kv.2)))

/-- Decoding of the fields of the history object, entry by entry. -/
def decodeEntries : List (String × Json) → Option Ledger
  | [] => some []
  | kv :: rest =>
    match entryFromJson kv.2 with
    | none => none
    | some e =>
      match decodeEntries rest with
      | none => none
      | some l => some ((kv.1, e) :: l)

/-- Decoding of the whole history mapping. -/
def ledgerFromJson : Json → Option Ledger
  | Json.jobj fields => decodeEntries fields
  | _ => none

/-- `load_history` (lines 20-28): the parsed file, or `{}` when the file
is absent or raises on parse. -/
def load_history : HistFile → Ledger
  | HistFile.absent => []
  | HistFile.corrupt => []
  | HistFile.parsed j => (ledgerFromJson j).getD []

/-- `save_history` (lines 30-34) as the document it writes to
`sync_history.json`. -/
def save_history (history : Ledger) : HistFile :=
  HistFile.parsed (ledgerToJson history)

/-- The token-exchange leg of `get_access_token` (lines 60-75): one GET,
no retry; on a body containing `access_token` it computes
`expires_at = now + expires_in - 300`, writes the cache file and returns
the token; a missing `access_token` prints and returns `None`; a missing
`expires_in` raises `KeyError` inside the `try`, caught by the same
handler as a transport failure, returning `None` without writing. -/
def fetchToken (env : Env) : Option String × List Event :=
  match env.tokenNet with
  | Except.error _ => (none, [Event.tokenRequest])
  | Except.ok data =>
    match data.access_token with
    | none => (none, [Event.tokenRequest])
    | some tok =>
      match data.expires_in with
      | none => (none, [Event.tokenRequest])
      | some ei =>
        (some tok, [Event.tokenRequest,
                    Event.tokenCacheWrite tok (env.now + ei - 300)])

/-- The cached-token fast path (lines 51-58): a parsed cache file whose
`expires_at > now` and which has a `token` field returns that token; a
missing `token` field raises `KeyError`, swallowed by `except: pass`,
falling through to the network path like every other miss. -/
def cachedTokenHit (env : Env) : Option String :=
  match env.tokenCacheFile with
  | TokenCacheFile.parsed (some t) ea => if ea > env.now then some t else none
  | _ => none

/-- `get_access_token` (lines 44-75): credential presence check first
(returns `None` with only diagnostic output), then the cache fast path,
then the network refresh. -/
def get_access_token (env : Env) : Option String × List Event :=
  if !(pyTruthy env.app_id) || !(pyTruthy env.app_secret) then
    (none, [])
  else
    match cachedTokenHit env with
    | some t => (some t, [])
    | none => fetchToken env

/-- `upload_image` (lines 77-90): flattens the logical path into the
remote filename, posts the multipart request, and decodes the response;
any exception (open, post, json decode) is caught and converted to
`{"errcode": -1, "errmsg": str(e)}`.  Returns the request it issued
together with the result so that the trace of network calls is
observable. -/
def upload_image (net : UploadRequest → Except String WireResponse)
    (token : String) (file_path : String) (original_path : String) :
    UploadRequest × WireResponse :=
  let file_name := pyReplaceSlash original_path
  let req : UploadRequest := ⟨token, file_name, file_path⟩
  match net req with
  | Except.ok r => (req, r)
  | Except.error e => (req, ⟨none, none, some (-1), some e⟩)

/-- Per-run mutable state of `main`'s loop: the in-memory history, the
three counters, and the accumulated effect trace. -/
structure SyncState where
  history : Ledger
  success : Nat
  skip : Nat
  fail : Nat
  events : List Event
deriving Repr, DecidableEq

/-- One iteration of `main`'s `for img_rel_path in IMAGES_LIST` body
(lines 111-156).  A missing local file logs and `continue`s (no counter,
no sleep); a ledger entry with matching MD5 `continue`s after bumping
the skip counter (no sleep); otherwise the upload is attempted, the
ledger updated and persisted on a body containing `media_id`, the fail
counter bumped otherwise, and `time.sleep(1)` runs after either upload
outcome. -/
def processFile (env : Env) (token : String) (st : SyncState)
    (img_rel_path : String) : SyncState :=
  let local_filename := pyReplaceSlash img_rel_path
  match env.fs local_filename with
  | none => st
  | some content =>
    let file_md5 := env.md5 content
    let skipIt :=
      match dictLookup st.history img_rel_path with
      | some entry => entry.md5 == file_md5
      | none => false
    if skipIt then
      { st with skip := st.skip + 1 }
    else
      match upload_image env.uploadNet token local_filename img_rel_path with
      | (req, result) =>
        match result.media_id with
        | some m =>
          let h' := dictInsert st.history img_rel_path
            ⟨m, result.url, file_md5, env.now⟩
          { st with
            history := h'
            success := st.success + 1
            events := st.events ++
              [Event.uploadCall req, Event.mkdirWorkspace,
               Event.saveHistoryWrite h', Event.sleep 1] }
        | none =>
          { st with
            fail := st.fail + 1
            events := st.events ++ [Event.uploadCall req, Event.sleep 1] }

/-- The whole `for` loop of `main`. -/
def syncLoop (env : Env) (token : String) (st : SyncState) :
    List String → SyncState
  | [] => st
  | p :: rest => syncLoop env token (processFile env token st p) rest

/-- `IMAGES_LIST` (lines 14-18): `sys.argv[1].split()` — split on runs
of whitespace, dropping empty pieces — or `[]` when the argument is
absent. -/
def imagesOf : Option String → List String
  | none => []
  | some s => pySplitWs s

/-- Observable outcome of a whole run of `main`. -/
structure MainResult where
  exitCode : Nat
  events : List Event
  success : Nat
  skip : Nat
  fail : Nat
  history : Ledger
deriving Repr, DecidableEq

/-- `main` (lines 92-158): empty list returns immediately (exit 0, no
effects); otherwise the workspace directory is created (line 100) and
the token acquired.  The guard on line 103 is `if not token:
sys.exit(1)` — Python truthiness, so both an absent token (`None`) and
an empty-string token (reachable from the cache file or the exchange
response) exit 1.  Past the guard the history is loaded and the loop
run; normal completion exits 0 whatever the counters say. -/
def mainGo (env : Env) : List String → MainResult
  | [] => ⟨0, [], 0, 0, 0, []⟩
  | p :: rest =>
    match get_access_token env with
    | (none, tokEv) => ⟨1, Event.mkdirWorkspace :: tokEv, 0, 0, 0, []⟩
    | (some tok, tokEv) =>
      if tok.isEmpty then
        ⟨1, Event.mkdirWorkspace :: tokEv, 0, 0, 0, []⟩
      else
        let st := syncLoop env tok
          ⟨load_history env.historyFile, 0, 0, 0,
            Event.mkdirWorkspace :: tokEv⟩
          (p :: rest)
        ⟨0, st.events, st.success, st.skip, st.fail, st.history⟩

/-- A whole invocation of the script: `main` applied to `IMAGES_LIST`
as parsed from the optional first command-line argument. -/
def mainRun (env : Env) (argv1 : Option String) : MainResult :=
  mainGo env (imagesOf argv1)

/-- Is this event a `time.sleep` call? -/
def isSleepEvent : Event → Bool
  | Event.sleep _ => true
  | _ => false

/-- Is this event a network interaction (token exchange or upload)? -/
def isNetworkEvent : Event → Bool
  | Event.tokenRequest => true
  | Event.uploadCall _ => true
  | _ => false

/-- Number of `time.sleep` calls in a trace. -/
def countSleep (evs : List Event) : Nat :=
  (evs.filter isSleepEvent).length

/-- Is this event a write of the token-cache file? -/
def isCacheWriteEvent : Event → Bool
  | Event.tokenCacheWrite _ _ => true
  | _ => false

/-- Concrete environment for the skip scenario: valid cached token,
history already holding `a/b.jpg` with the MD5 of the present local file
`a_b.jpg`; the network is down, which proves no call is attempted. -/
def envSkipRun : Env :=
  { app_id := some "id"
    app_secret := some "secret"
    now := 100
    tokenCacheFile := TokenCacheFile.parsed (some "cachedTok") 200
    tokenNet := Except.error "offline"
    historyFile := HistFile.parsed
      (ledgerToJson [("a/b.jpg", ⟨"M1", none, "CONTENT", 0⟩)])
    fs := fun n => if n = "a_b.jpg" then some "CONTENT" else none
    md5 := fun c => c
    uploadNet := fun _ => Except.error "offline" }

/-- C1: a logical path whose local flattened file exists and whose
ledger entry's stored md5 equals the freshly computed MD5 is skipped:
the loop body leaves everything unchanged — no upload call appended to
the trace, history untouched, success and fail counters untouched —
except the skip counter, which increments. -/
theorem skip_when_md5_matches (env : Env) (token : String) (st : SyncState)
    (p c : String) (e : LedgerEntry)
    (hfs : env.fs (pyReplaceSlash p) = some c)
    (hl : dictLookup st.history p = some e)
    (hm : e.md5 = env.md5 c) :
    processFile env token st p = { st with skip := st.skip + 1 } := by
  simp [processFile, hfs, hl, hm]

/-- Witness for C1: the skip scenario evaluated on a concrete state. -/
theorem skip_when_md5_matches_witness :
    processFile envSkipRun "cachedTok"
        ⟨[("a/b.jpg", ⟨"M1", none, "CONTENT", 0⟩)], 0, 0, 0, []⟩ "a/b.jpg" =
      ⟨[("a/b.jpg", ⟨"M1", none, "CONTENT", 0⟩)], 0, 1, 0, []⟩ :=
  skip_when_md5_matches envSkipRun "cachedTok"
    ⟨[("a/b.jpg", ⟨"M1", none, "CONTENT", 0⟩)], 0, 0, 0, []⟩
    "a/b.jpg" "CONTENT" ⟨"M1", none, "CONTENT", 0⟩ rfl rfl rfl

/-- C6: `upload_image` is total (it returns the request it issued and a
result value): the filename it sends is the logical path with every
`/` replaced by `_`; a transport exception with text `e` yields exactly
the result `{"errcode": -1, "errmsg": e}`; a decoded response is
returned as-is. -/
theorem upload_image_total_and_flattens
    (net : UploadRequest → Except String WireResponse)
    (token file_path original_path : String) :
    (upload_image net token file_path original_path).1.fileName =
      pyReplaceSlash original_path ∧
    (∀ e, net ⟨token, pyReplaceSlash original_path, file_path⟩ =
        Except.error e →
      (upload_image net token file_path original_path).2 =
        ⟨none, none, some (-1), some e⟩) ∧
    (∀ r, net ⟨token, pyReplaceSlash original_path, file_path⟩ =
        Except.ok r →
      (upload_image net token file_path original_path).2 = r) := by
  refine ⟨?_, ?_, ?_⟩
  · cases hnet : net ⟨token, pyReplaceSlash original_path, file_path⟩ <;>
      simp [upload_image, hnet]
  · intro e he
    simp [upload_image, he]
  · intro r hr
    simp [upload_image, hr]

/-- Transport layer that always raises, for the C6 witness. -/
def netDownW : UploadRequest → Except String WireResponse :=
  fun _ => Except.error "connection reset"

/-- Witness for C6: a raising transport evaluated concretely. -/
theorem upload_image_total_and_flattens_witness :
    (upload_image netDownW "tok" "a_b.jpg" "a/b.jpg").1.fileName =
      pyReplaceSlash "a/b.jpg" ∧
    (upload_image netDownW "tok" "a_b.jpg" "a/b.jpg").2 =
      ⟨none, none, some (-1), some "connection reset"⟩ :=
  ⟨(upload_image_total_and_flattens netDownW "tok" "a_b.jpg" "a/b.jpg").1,
   (upload_image_total_and_flattens netDownW "tok" "a_b.jpg" "a/b.jpg").2.1
     "connection reset" rfl⟩

/-- A change of the history file is invisible to one loop iteration:
`processFile` reads only the filesystem, the hash function, the clock
and the upload endpoint. -/
theorem processFile_historyFile_irrelevant (env : Env) (f : HistFile)
    (token : String) (st : SyncState) (p : String) :
    processFile { env with historyFile := f } token st p =
      processFile env token st p := rfl

/-- A change of the history file is invisible to the whole loop. -/
theorem syncLoop_historyFile_irrelevant (env : Env) (f : HistFile)
    (token : String) (st : SyncState) (l : List String) :
    syncLoop { env with historyFile := f } token st l =
      syncLoop env token st l := by
  induction l generalizing st with
  | nil => rfl
  | cons p rest ih =>
    simp [syncLoop, processFile_historyFile_irrelevant, ih]

/-- A change of the history file is invisible to token acquisition. -/
theorem get_access_token_historyFile_irrelevant (env : Env) (f : HistFile) :
    get_access_token { env with historyFile := f } =
      get_access_token env := rfl

/-- C8: `load_history` yields the empty ledger on an absent or
unparsable history file, and a whole run over a corrupt history file is
identical to a run over no history file at all (sync proceeds as if
nothing was ever synced). -/
theorem load_history_corrupt_empty (env : Env) (argv1 : Option String) :
    load_history HistFile.absent = [] ∧
    load_history HistFile.corrupt = [] ∧
    mainRun { env with historyFile := HistFile.corrupt } argv1 =
      mainRun { env with historyFile := HistFile.absent } argv1 := by
  refine ⟨rfl, rfl, ?_⟩
  unfold mainRun
  cases himg : imagesOf argv1 with
  | nil => rfl
  | cons p rest =>
    unfold mainGo
    simp only [get_access_token_historyFile_irrelevant]
    cases hga : get_access_token env with
    | mk tokOpt evs =>
      cases tokOpt with
      | none => rfl
      | some tok =>
        simp only [syncLoop_historyFile_irrelevant]
        rfl

/-- Round trip of one ledger entry through its JSON shape. -/
theorem entryFromJson_entryToJson (e : LedgerEntry) :
    entryFromJson (entryToJson e) = some e := by
  cases e with
  | mk m u h t => cases u <;> simp [entryToJson, entryFromJson]

/-- Round trip of a whole ledger through its JSON document. -/
theorem ledgerFromJson_ledgerToJson (l : Ledger) :
    ledgerFromJson (ledgerToJson l) = some l := by
  induction l with
  | nil => rfl
  | cons kv rest ih =>
    simp only [ledgerToJson, ledgerFromJson, List.map_cons, decodeEntries,
      entryFromJson_entryToJson]
    simp only [ledgerToJson, ledgerFromJson] at ih
    simp [ih]

/-- C9: saving any ledger with `save_history` and loading it back with
`load_history` over uncorrupted storage yields an equal mapping. -/
theorem save_load_roundtrip (history : Ledger) :
    load_history (save_history history) = history := by
  simp [load_history, save_history, ledgerFromJson_ledgerToJson]

/-- Environment with both credentials unset, for the no-argument runs. -/
def envUnsetW1 : Env :=
  { app_id := none
    app_secret := none
    now := 0
    tokenCacheFile := TokenCacheFile.absent
    tokenNet := Except.error "unreachable"
    historyFile := HistFile.absent
    fs := fun _ => none
    md5 := fun c => c
    uploadNet := fun _ => Except.error "unreachable" }

/-- A second, different environment (credentials present), to show the
empty-list run never consults the environment. -/
def envUnsetW2 : Env :=
  { app_id := some "id"
    app_secret := some "secret"
    now := 5
    tokenCacheFile := TokenCacheFile.corrupt
    tokenNet := Except.ok ⟨some "t", some 7200⟩
    historyFile := HistFile.corrupt
    fs := fun _ => some "X"
    md5 := fun c => c
    uploadNet := fun _ => Except.error "unreachable" }

/-- Environment with the first credential unset; everything else is
live, so any attempted effect would show up in the run's trace. -/
def envNoCredsRun : Env :=
  { app_id := none
    app_secret := some "secret"
    now := 0
    tokenCacheFile := TokenCacheFile.absent
    tokenNet := Except.error "unreachable"
    historyFile := HistFile.absent
    fs := fun _ => none
    md5 := fun c => c
    uploadNet := fun _ => Except.error "unreachable" }

/-- Counterexample to C3 as stated: with a nonempty file list and a
missing credential the run does exit 1, but its trace already contains
the creation of the workspace directory (`os.makedirs` on line 100 runs
before `get_access_token` checks the credentials on line 45), so a
filesystem side effect beyond diagnostic output does occur before the
abort. -/
theorem missing_creds_mkdir_first :
    pyTruthy envNoCredsRun.app_id = false ∧
    (mainRun envNoCredsRun (some "a/b.jpg")).exitCode = 1 ∧
    Event.mkdirWorkspace ∈ (mainRun envNoCredsRun (some "a/b.jpg")).events := by
  decide

/-- C3 amended: with a nonempty file list, a missing (or empty)
credential aborts the run with exit status 1 before any network call or
file write — the only prior side effect is the creation of the
workspace directory. -/
theorem missing_creds_abort (env : Env) (argv1 : Option String)
    (hc : pyTruthy env.app_id = false ∨ pyTruthy env.app_secret = false)
    (hne : imagesOf argv1 ≠ []) :
    mainRun env argv1 = ⟨1, [Event.mkdirWorkspace], 0, 0, 0, []⟩ := by
  have hga : get_access_token env = (none, []) := by
    unfold get_access_token
    rcases hc with h | h <;> simp [h]
  unfold mainRun
  cases himg : imagesOf argv1 with
  | nil => exact absurd himg hne
  | cons p rest => simp [mainGo, hga]

/-- Witness for the amended C3 on a concrete environment. -/
theorem missing_creds_abort_witness :
    (pyTruthy envNoCredsRun.app_id = false ∨
      pyTruthy envNoCredsRun.app_secret = false) ∧
    imagesOf (some "a/b.jpg") ≠ [] ∧
    mainRun envNoCredsRun (some "a/b.jpg") =
      ⟨1, [Event.mkdirWorkspace], 0, 0, 0, []⟩ :=
  ⟨Or.inl rfl, by decide,
   missing_creds_abort envNoCredsRun (some "a/b.jpg") (Or.inl rfl)
     (by decide)⟩

/-- Counterexample to C4 as stated: in a run whose single file is
processed with the skip outcome, no sleep happens at all — the `skip`
branch reaches `continue` on line 134 and never gets to `time.sleep(1)`
on line 156. -/
theorem sleep_skipped_on_skip :
    (mainRun envSkipRun (some "a/b.jpg")).skip = 1 ∧
    countSleep (mainRun envSkipRun (some "a/b.jpg")).events = 0 := by
  decide

/-- A prepended non-sleep event does not change the sleep count. -/
theorem countSleep_cons_mkdir (evs : List Event) :
    countSleep (Event.mkdirWorkspace :: evs) = countSleep evs := by
  simp [countSleep, isSleepEvent]

/-- Unit-step accounting: one loop iteration adds exactly as many
sleeps as it adds upload outcomes (successes plus failures). -/
theorem countSleep_processFile (env : Env) (token : String)
    (st : SyncState) (p : String) :
    countSleep (processFile env token st p).events + st.success + st.fail =
      countSleep st.events + (processFile env token st p).success +
        (processFile env token st p).fail := by
  cases hfs : env.fs (pyReplaceSlash p) with
  | none => simp [processFile, hfs]
  | some content =>
    have upload_case :
        (match dictLookup st.history p with
          | some entry => entry.md5 == env.md5 content
          | none => false) = false →
        countSleep (processFile env token st p).events + st.success + st.fail =
          countSleep st.events + (processFile env token st p).success +
            (processFile env token st p).fail := by
      intro hskip
      cases hup : upload_image env.uploadNet token (pyReplaceSlash p) p with
      | mk req result =>
        cases hmid : result.media_id with
        | some m =>
          simp only [processFile, hfs, hskip, hup, hmid, Bool.false_eq_true,
            if_false, countSleep, List.filter_append]
          simp [isSleepEvent]
          omega
        | none =>
          simp only [processFile, hfs, hskip, hup, hmid, Bool.false_eq_true,
            if_false, countSleep, List.filter_append]
          simp [isSleepEvent]
          omega
    cases hl : dictLookup st.history p with
    | none => exact upload_case (by simp [hl])
    | some e =>
      by_cases hm : (e.md5 == env.md5 content) = true
      · simp [processFile, hfs, hl, hm]
      · exact upload_case (by
          rw [hl]
          exact Bool.not_eq_true _ |>.mp hm)

/-- Loop accounting: the whole loop adds exactly as many sleeps as
upload outcomes. -/
theorem countSleep_syncLoop (env : Env) (token : String) (st : SyncState)
    (l : List String) :
    countSleep (syncLoop env token st l).events + st.success + st.fail =
      countSleep st.events + (syncLoop env token st l).success +
        (syncLoop env token st l).fail := by
  induction l generalizing st with
  | nil => rfl
  | cons p rest ih =>
    have h1 := countSleep_processFile env token st p
    have h2 := ih (processFile env token st p)
    simp only [syncLoop]
    omega

/-- Token acquisition never sleeps. -/
theorem countSleep_get_access_token (env : Env) :
    countSleep (get_access_token env).2 = 0 := by
  unfold get_access_token
  split
  · rfl
  · cases hc : cachedTokenHit env with
    | some t => rfl
    | none =>
      unfold fetchToken
      cases hnet : env.tokenNet with
      | error e => simp [countSleep, isSleepEvent]
      | ok data =>
        cases hat : data.access_token with
        | none => simp [hat, countSleep, isSleepEvent]
        | some t =>
          cases hei : data.expires_in with
          | none => simp [hat, hei, countSleep, isSleepEvent]
          | some ei => simp [hat, hei, countSleep, isSleepEvent]

/-- C4 amended: the fixed 1-unit sleep runs after each file for which
an upload is attempted — exactly one sleep per success or failure
outcome; skipped files and locally-missing files proceed to the next
file without sleeping. -/
theorem sleep_per_upload_attempt (env : Env) (argv1 : Option String) :
    countSleep (mainRun env argv1).events =
      (mainRun env argv1).success + (mainRun env argv1).fail := by
  unfold mainRun
  cases himg : imagesOf argv1 with
  | nil => rfl
  | cons p rest =>
    unfold mainGo
    cases hga : get_access_token env with
    | mk tokOpt evs =>
      have hevs : countSleep evs = 0 := by
        have h := countSleep_get_access_token env
        rw [hga] at h
        exact h
      cases tokOpt with
      | none =>
        simpa [countSleep_cons_mkdir] using hevs
      | some tok =>
        dsimp only
        split
        · simpa [countSleep_cons_mkdir] using hevs
        · have h := countSleep_syncLoop env tok
            ⟨load_history env.historyFile, 0, 0, 0,
              Event.mkdirWorkspace :: evs⟩ (p :: rest)
          simp only [countSleep_cons_mkdir, hevs] at h
          dsimp only
          omega

/-- C10: an absent or all-whitespace file-list argument makes `main`
return immediately with exit status 0 and an empty effect trace — no
workspace directory creation, no network call, no credential check (the
outcome is the same for every environment, in particular when both
credentials are unset). -/
theorem empty_list_early_return (env env2 : Env) (argv1 : Option String)
    (h : imagesOf argv1 = []) :
    mainRun env argv1 = ⟨0, [], 0, 0, 0, []⟩ ∧
    mainRun env argv1 = mainRun env2 argv1 := by
  unfold mainRun
  rw [h]
  exact ⟨rfl, rfl⟩

/-- Witness for C10: the absent argument, one environment with both
credentials unset and one with them set. -/
theorem empty_list_early_return_witness :
    imagesOf none = [] ∧
    mainRun envUnsetW1 none = ⟨0, [], 0, 0, 0, []⟩ ∧
    mainRun envUnsetW1 none = mainRun envUnsetW2 none :=
  ⟨rfl,
   (empty_list_early_return envUnsetW1 envUnsetW2 none rfl).1,
   (empty_list_early_return envUnsetW1 envUnsetW2 none rfl).2⟩

/-- Failed token exchange produces exactly one request and no other
event (in particular no cache write, and no retry). -/
theorem fetchToken_failure_events (env : Env) :
    (fetchToken env).1 = none → (fetchToken env).2 = [Event.tokenRequest] := by
  unfold fetchToken
  cases hnet : env.tokenNet with
  | error e => intro _; rfl
  | ok data =>
    cases hat : data.access_token with
    | none => simp [hat]
    | some t =>
      cases hei : data.expires_in with
      | none => simp [hat, hei]
      | some ei => simp [hat, hei]

/-- Concrete environment for the token-cache witness: valid cached
token, a live exchange endpoint behind it. -/
def envTokenW : Env :=
  { app_id := some "id"
    app_secret := some "secret"
    now := 100
    tokenCacheFile := TokenCacheFile.parsed (some "cachedTok") 500
    tokenNet := Except.ok ⟨some "freshTok", some 7200⟩
    historyFile := HistFile.absent
    fs := fun _ => none
    md5 := fun c => c
    uploadNet := fun _ => Except.error "unused" }

/-- C5: token caching (with credentials configured): (i) a parsed cache
file holding a token with `expires_at > now` returns that token with an
empty effect trace — no network call, no write; (ii) a corrupt or
unreadable cache file behaves exactly like an absent one (cache miss,
not an error); (iii) on a cache miss, a successful exchange returns the
fresh token after exactly one request followed by one cache write
storing `expires_at = now + expires_in - 300`; (iv) when acquisition
fails, the trace contains no cache write at all. -/
theorem token_cache_behavior (env : Env)
    (hid : pyTruthy env.app_id = true)
    (hsec : pyTruthy env.app_secret = true) :
    (∀ t ea, env.tokenCacheFile = TokenCacheFile.parsed (some t) ea →
      ea > env.now → get_access_token env = (some t, [])) ∧
    (get_access_token { env with tokenCacheFile := TokenCacheFile.corrupt } =
      get_access_token { env with tokenCacheFile := TokenCacheFile.absent }) ∧
    (∀ resp t ei, cachedTokenHit env = none →
      env.tokenNet = Except.ok resp → resp.access_token = some t →
      resp.expires_in = some ei →
      get_access_token env =
        (some t, [Event.tokenRequest,
          Event.tokenCacheWrite t (env.now + ei - 300)])) ∧
    ((get_access_token env).1 = none →
      ∀ ev ∈ (get_access_token env).2, isCacheWriteEvent ev = false) := by
  have hcred : (!pyTruthy env.app_id || !pyTruthy env.app_secret) = false := by
    simp [hid, hsec]
  refine ⟨?_, ?_, ?_, ?_⟩
  · intro t ea hcf hgt
    have hhit : cachedTokenHit env = some t := by
      unfold cachedTokenHit
      rw [hcf]
      simp [hgt]
    unfold get_access_token
    rw [hcred, hhit]
    rfl
  · unfold get_access_token cachedTokenHit fetchToken
    rfl
  · intro resp t ei hmiss hnet hat hei
    unfold get_access_token
    rw [hcred, hmiss]
    unfold fetchToken
    rw [hnet]
    simp [hat, hei]
  · intro hnone ev hev
    unfold get_access_token at hnone hev
    rw [hcred] at hnone hev
    simp only [Bool.false_eq_true, if_false] at hnone hev
    cases hch : cachedTokenHit env with
    | some t =>
      rw [hch] at hnone
      simp at hnone
    | none =>
      rw [hch] at hnone hev
      rw [fetchToken_failure_events env hnone] at hev
      simp only [List.mem_singleton] at hev
      rw [hev]
      rfl

/-- Witness for C5: the cache-hit path and the corrupt-as-absent path
evaluated on a concrete environment. -/
theorem token_cache_behavior_witness :
    get_access_token envTokenW = (some "cachedTok", []) ∧
    get_access_token { envTokenW with
        tokenCacheFile := TokenCacheFile.corrupt } =
      get_access_token { envTokenW with
        tokenCacheFile := TokenCacheFile.absent } :=
  ⟨(token_cache_behavior envTokenW rfl rfl).1 "cachedTok" 500 rfl (by decide),
   (token_cache_behavior envTokenW rfl rfl).2.1⟩

/-- Concrete environment whose token exchange raises, for the C7
witness. -/
def envTokFail : Env :=
  { app_id := some "id"
    app_secret := some "secret"
    now := 0
    tokenCacheFile := TokenCacheFile.absent
    tokenNet := Except.error "timeout"
    historyFile := HistFile.absent
    fs := fun _ => some "X"
    md5 := fun c => c
    uploadNet := fun _ => Except.error "offline" }

/-- Concrete environment whose cache file holds an unexpired
empty-string token, for the C7 witness: Python's line 103 guard
`if not token` treats it as a failure and exits 1. -/
def envEmptyTok : Env :=
  { app_id := some "id"
    app_secret := some "secret"
    now := 100
    tokenCacheFile := TokenCacheFile.parsed (some "") 500
    tokenNet := Except.error "unused"
    historyFile := HistFile.absent
    fs := fun _ => some "X"
    md5 := fun c => c
    uploadNet := fun _ => Except.error "offline" }

/-- C7: total token-acquisition failure aborts the run: a transport
exception, or a response without the token field, makes the exchange
fail after exactly one request (no retry, no cache write); whenever the
acquired token is falsy (`None`, or the empty string the line 103
`if not token` guard also rejects), `main` exits with status 1 having
produced only the workspace directory and the token-acquisition
events — no upload, no ledger write, all counters zero; and whenever a
truthy token is obtained (or the list is empty), the exit status is 0
no matter how the individual uploads fare. -/
theorem token_failure_aborts (env : Env) (argv1 : Option String) :
    (∀ e, env.tokenNet = Except.error e →
      fetchToken env = (none, [Event.tokenRequest])) ∧
    (∀ resp, env.tokenNet = Except.ok resp → resp.access_token = none →
      fetchToken env = (none, [Event.tokenRequest])) ∧
    (pyTruthy (get_access_token env).1 = false → imagesOf argv1 ≠ [] →
      mainRun env argv1 =
        ⟨1, Event.mkdirWorkspace :: (get_access_token env).2,
          0, 0, 0, []⟩) ∧
    ((pyTruthy (get_access_token env).1 = true ∨ imagesOf argv1 = []) →
      (mainRun env argv1).exitCode = 0) := by
  refine ⟨?_, ?_, ?_, ?_⟩
  · intro e he
    unfold fetchToken
    rw [he]
  · intro resp hresp hat
    unfold fetchToken
    rw [hresp]
    simp [hat]
  · intro hfalsy hne
    unfold mainRun
    cases himg : imagesOf argv1 with
    | nil => exact absurd himg hne
    | cons p rest =>
      unfold mainGo
      cases hga : get_access_token env with
      | mk tokOpt evs =>
        cases tokOpt with
        | none => rfl
        | some t =>
          rw [hga] at hfalsy
          simp only [pyTruthy, Bool.not_eq_false'] at hfalsy
          simp [hfalsy]
  · intro hor
    unfold mainRun
    rcases hor with htruthy | hempt
    · cases himg : imagesOf argv1 with
      | nil => rfl
      | cons p rest =>
        unfold mainGo
        cases hga : get_access_token env with
        | mk tokOpt evs =>
          cases tokOpt with
          | none =>
            rw [hga] at htruthy
            simp [pyTruthy] at htruthy
          | some t =>
            rw [hga] at htruthy
            simp only [pyTruthy, Bool.not_eq_true'] at htruthy
            simp [htruthy]
    · rw [hempt]
      rfl

/-- Witness for C7: a raising exchange endpoint — one request, exit 1
with nothing processed; an unexpired cached empty-string token — exit 1
with nothing processed; and the empty-list run exits 0. -/
theorem token_failure_aborts_witness :
    fetchToken envTokFail = (none, [Event.tokenRequest]) ∧
    mainRun envTokFail (some "a/b.jpg") =
      ⟨1, [Event.mkdirWorkspace, Event.tokenRequest], 0, 0, 0, []⟩ ∧
    mainRun envEmptyTok (some "a/b.jpg") =
      ⟨1, [Event.mkdirWorkspace], 0, 0, 0, []⟩ ∧
    (mainRun envTokFail none).exitCode = 0 :=
  ⟨(token_failure_aborts envTokFail (some "a/b.jpg")).1 "timeout" rfl,
   (token_failure_aborts envTokFail (some "a/b.jpg")).2.2.1 rfl (by decide),
   (token_failure_aborts envEmptyTok (some "a/b.jpg")).2.2.1 rfl (by decide),
   (token_failure_aborts envTokFail none).2.2.2 (Or.inr rfl)⟩

/-- C2: when an upload is attempted for `p` (its local flattened file
holds `c` and no ledger entry at `p` stores the md5 of `c`), the loop
continues with the remaining files from the state the upload outcome
determines: a result carrying a `media_id` overwrites the entry at `p`
with that id, the result's optional url, the fresh md5 and the current
time, records the immediate save of the new ledger in the trace and
increments the success counter; a result without `media_id` leaves the
ledger untouched and increments the failure counter; the trace then
continues with the per-file sleep in either case. -/
theorem upload_outcome (env : Env) (token : String) (st : SyncState)
    (p c : String) (rest : List String)
    (hfs : env.fs (pyReplaceSlash p) = some c)
    (hnoskip : ∀ e, dictLookup st.history p = some e →
      e.md5 ≠ env.md5 c) :
    syncLoop env token st (p :: rest) =
      syncLoop env token
        (match upload_image env.uploadNet token (pyReplaceSlash p) p with
         | (req, result) =>
           match result.media_id with
           | some m =>
             { st with
               history := dictInsert st.history p
                 ⟨m, result.url, env.md5 c, env.now⟩
               success := st.success + 1
               events := st.events ++
                 [Event.uploadCall req, Event.mkdirWorkspace,
                  Event.saveHistoryWrite (dictInsert st.history p
                    ⟨m, result.url, env.md5 c, env.now⟩),
                  Event.sleep 1] }
           | none =>
             { st with
               fail := st.fail + 1
               events := st.events ++
                 [Event.uploadCall req, Event.sleep 1] })
        rest := by
  have hskip : (match dictLookup st.history p with
      | some entry => entry.md5 == env.md5 c
      | none => false) = false := by
    cases hl : dictLookup st.history p with
    | none => rfl
    | some e =>
      simpa using hnoskip e hl
  show syncLoop env token (processFile env token st p) rest = _
  have hpf : processFile env token st p =
      (match upload_image env.uploadNet token (pyReplaceSlash p) p with
       | (req, result) =>
         match result.media_id with
         | some m =>
           { st with
             history := dictInsert st.history p
               ⟨m, result.url, env.md5 c, env.now⟩
             success := st.success + 1
             events := st.events ++
               [Event.uploadCall req, Event.mkdirWorkspace,
                Event.saveHistoryWrite (dictInsert st.history p
                  ⟨m, result.url, env.md5 c, env.now⟩),
                Event.sleep 1] }
         | none =>
           { st with
             fail := st.fail + 1
             events := st.events ++
               [Event.uploadCall req, Event.sleep 1] }) := by
    unfold processFile
    simp only [hfs, hskip, Bool.false_eq_true, if_false]
  rw [hpf]

/-- Concrete environment for the C2 witness: empty ledger, local file
present, upload endpoint returning a `media_id`. -/
def envUploadW : Env :=
  { app_id := some "id"
    app_secret := some "secret"
    now := 100
    tokenCacheFile := TokenCacheFile.parsed (some "tok") 500
    tokenNet := Except.error "unused"
    historyFile := HistFile.absent
    fs := fun n => if n = "a_b.jpg" then some "C" else none
    md5 := fun c => c
    uploadNet := fun _ =>
      Except.ok ⟨some "M9", some "http://img", none, none⟩ }

/-- Witness for C2: a successful upload on a concrete environment. -/
theorem upload_outcome_witness :
    syncLoop envUploadW "tok" ⟨[], 0, 0, 0, []⟩ ["a/b.jpg"] =
      syncLoop envUploadW "tok"
        (match upload_image envUploadW.uploadNet "tok"
            (pyReplaceSlash "a/b.jpg") "a/b.jpg" with
         | (req, result) =>
           match result.media_id with
           | some m =>
             { history := dictInsert [] "a/b.jpg"
                 ⟨m, result.url, envUploadW.md5 "C", envUploadW.now⟩
               success := 0 + 1
               skip := 0
               fail := 0
               events := [] ++
                 [Event.uploadCall req, Event.mkdirWorkspace,
                  Event.saveHistoryWrite (dictInsert [] "a/b.jpg"
                    ⟨m, result.url, envUploadW.md5 "C", envUploadW.now⟩),
                  Event.sleep 1] }
           | none =>
             { history := []
               success := 0
               skip := 0
               fail := 0 + 1
               events := [] ++ [Event.uploadCall req, Event.sleep 1] })
        [] :=
  upload_outcome envUploadW "tok" ⟨[], 0, 0, 0, []⟩ "a/b.jpg" "C" [] rfl
    (fun _ he => nomatch he)
